import Mathlib

/-
Verification of the CEPS website-analyzer core: a shallow embedding of the
scoring engine (src/core/scoring.py), the response parser and usage
tracking (src/services/llm_router.py), the five analysis agents
(src/agents/*.py) and the analysis epilogue of src/app.py, together with
theorems settling the specification claims.

Conventions of the embedding:
- Python floats are modelled as exact rationals (ℚ); `round(x, 1)` is
  modelled as round-half-to-even on the exact rational, matching CPython's
  banker's rounding on exactly representable values.
- Python strings are Lean `String`s.
- The external generative capability is an oracle: an agent receives an
  `LLMOutcome` standing for "the call raised" or "the call returned this
  raw text"; everything downstream of the raw text is translated from the
  source.
- Fallible Python code (code that can raise) returns `Option`/`Except`.
-/

/-- Python/JSON value universe: the possible results of `json.loads`.
`Json.null` doubles as Python `None`, which is also what
`LLMRouter.parse_json` returns when every extraction tier fails. -/
inductive Json where
  | null : Json
  | bool : Bool → Json
  | num : ℚ → Json
  | str : String → Json
  | arr : List Json → Json
  | obj : List (String × Json) → Json

namespace LLMRouter

/-- JSON whitespace accepted by `json.loads` between tokens. -/
def isJsonWs (c : Char) : Bool :=
  c = ' ' || c = '\t' || c = '\n' || c = '\r'

/-- Drops leading JSON whitespace. -/
def skipWs : List Char → List Char
  | [] => []
  | c :: rest => if isJsonWs c then skipWs rest else c :: rest

/-- Value of a hexadecimal digit, if any. -/
def hexVal (c : Char) : Option Nat :=
  if '0' ≤ c ∧ c ≤ '9' then some (c.toNat - '0'.toNat)
  else if 'a' ≤ c ∧ c ≤ 'f' then some (c.toNat - 'a'.toNat + 10)
  else if 'A' ≤ c ∧ c ≤ 'F' then some (c.toNat - 'A'.toNat + 10)
  else none

/-- Single-character JSON string escapes. -/
def simpleEsc (c : Char) : Option Char :=
  if c = '"' then some '"'
  else if c = '\\' then some '\\'
  else if c = '/' then some '/'
  else if c = 'b' then some (Char.ofNat 8)
  else if c = 'f' then some (Char.ofNat 12)
  else if c = 'n' then some '\n'
  else if c = 'r' then some '\r'
  else if c = 't' then some '\t'
  else none

/-- Body of a JSON string literal, after the opening quote: returns the
decoded characters and the rest of the input. Models the string scanner of
`json.loads` (surrogate pairing and the rejection of raw control
characters are not modelled; no claim exercises them). -/
def stringBody : Nat → List Char → Option (List Char × List Char)
  | 0, _ => none
  | _ + 1, [] => none
  | fuel + 1, c :: rest =>
    if c = '"' then some ([], rest)
    else if c = '\\' then
      match rest with
      | [] => none
      | e :: rest2 =>
        if e = 'u' then
          match rest2 with
          | a :: b :: c3 :: d :: rest3 =>
            match hexVal a, hexVal b, hexVal c3, hexVal d with
            | some ha, some hb, some hc, some hd =>
              match stringBody fuel rest3 with
              | some (s, r) =>
                some (Char.ofNat (((ha * 16 + hb) * 16 + hc) * 16 + hd) :: s, r)
              | none => none
            | _, _, _, _ => none
          | _ => none
        else
          match simpleEsc e with
          | some ch =>
            match stringBody fuel rest2 with
            | some (s, r) => some (ch :: s, r)
            | none => none
          | none => none
    else
      match stringBody fuel rest with
      | some (s, r) => some (c :: s, r)
      | none => none

/-- Numeric value of a digit list (most significant first). -/
def digitsToNat (ds : List Char) : Nat :=
  ds.foldl (fun acc d => acc * 10 + (d.toNat - '0'.toNat)) 0

/-- Exponent suffix of a JSON number: sign and digits after `e`/`E`. -/
def expPart (mag : ℚ) (rest : List Char) : Option (ℚ × List Char) :=
  let (sgnNeg, rest1) :=
    match rest with
    | '+' :: r => (false, r)
    | '-' :: r => (true, r)
    | _ => (false, rest)
  let eds := rest1.takeWhile Char.isDigit
  if eds = [] then none
  else
    let p : ℚ := ((10 ^ digitsToNat eds : ℕ) : ℚ)
    some (if sgnNeg then mag / p else mag * p, rest1.dropWhile Char.isDigit)

/-- JSON number grammar of `json.loads`:
`-?(0|[1-9][0-9]*)(.[0-9]+)?([eE][+-]?[0-9]+)?`, evaluated exactly in ℚ.
The non-standard `NaN`/`Infinity` literals accepted by CPython are not
modelled; no claim exercises them. -/
def numberToken (cs : List Char) : Option (ℚ × List Char) :=
  let (neg, cs1) :=
    match cs with
    | '-' :: rest => (true, rest)
    | _ => (false, cs)
  let intDigits := cs1.takeWhile Char.isDigit
  let cs2 := cs1.dropWhile Char.isDigit
  if intDigits = [] then none
  else if 1 < intDigits.length ∧ intDigits.head? = some '0' then none
  else
    let base : ℚ := (digitsToNat intDigits : ℚ)
    let step2 : Option (ℚ × List Char) :=
      match cs2 with
      | '.' :: rest =>
        let fds := rest.takeWhile Char.isDigit
        if fds = [] then none
        else some (base + (digitsToNat fds : ℚ) / ((10 ^ fds.length : ℕ) : ℚ),
                   rest.dropWhile Char.isDigit)
      | _ => some (base, cs2)
    match step2 with
    | none => none
    | some (mag, cs3) =>
      let step3 : Option (ℚ × List Char) :=
        match cs3 with
        | 'e' :: rest => expPart mag rest
        | 'E' :: rest => expPart mag rest
        | _ => some (mag, cs3)
      match step3 with
      | none => none
      | some (v, cs4) => some (if neg then -v else v, cs4)

mutual

/-- One JSON value (with leading whitespace), returning the rest of the
input. Fuel bounds recursion depth; `jsonLoads` supplies enough fuel that
it never runs out on any input. -/
def parseValue : Nat → List Char → Option (Json × List Char)
  | 0, _ => none
  | fuel + 1, cs =>
    match skipWs cs with
    | 'n' :: 'u' :: 'l' :: 'l' :: rest => some (Json.null, rest)
    | 't' :: 'r' :: 'u' :: 'e' :: rest => some (Json.bool true, rest)
    | 'f' :: 'a' :: 'l' :: 's' :: 'e' :: rest => some (Json.bool false, rest)
    | '"' :: rest =>
      match stringBody (rest.length + 1) rest with
      | some (s, r) => some (Json.str (String.mk s), r)
      | none => none
    | '[' :: rest =>
      match skipWs rest with
      | ']' :: r2 => some (Json.arr [], r2)
      | other =>
        match parseItems fuel other with
        | some (vs, r2) => some (Json.arr vs, r2)
        | none => none
    | '\x7b' :: rest =>
      match skipWs rest with
      | '\x7d' :: r2 => some (Json.obj [], r2)
      | other =>
        match parseMembers fuel other with
        | some (kvs, r2) => some (Json.obj kvs, r2)
        | none => none
    | other =>
      match numberToken other with
      | some (q, r) => some (Json.num q, r)
      | none => none

/-- Comma-separated array items up to the closing bracket. -/
def parseItems : Nat → List Char → Option (List Json × List Char)
  | 0, _ => none
  | fuel + 1, cs =>
    match parseValue fuel cs with
    | none => none
    | some (v, rest) =>
      match skipWs rest with
      | ',' :: r2 =>
        match parseItems fuel r2 with
        | some (vs, r3) => some (v :: vs, r3)
        | none => none
      | ']' :: r2 => some ([v], r2)
      | _ => none

/-- Comma-separated `"key": value` members up to the closing brace.
Later duplicate keys are kept in the association list; lookups use the
last occurrence, matching Python dict insertion semantics. -/
def parseMembers : Nat → List Char → Option (List (String × Json) × List Char)
  | 0, _ => none
  | fuel + 1, cs =>
    match skipWs cs with
    | '"' :: rest =>
      match stringBody (rest.length + 1) rest with
      | none => none
      | some (k, r1) =>
        match skipWs r1 with
        | ':' :: r2 =>
          match parseValue fuel r2 with
          | none => none
          | some (v, r3) =>
            match skipWs r3 with
            | ',' :: r4 =>
              match parseMembers fuel r4 with
              | some (kvs, r5) => some ((String.mk k, v) :: kvs, r5)
              | none => none
            | '\x7d' :: r4 => some ([(String.mk k, v)], r4)
            | _ => none
        | _ => none
    | _ => none

end

/-- Model of `json.loads`: parse one JSON document, reject trailing
non-whitespace ("Extra data"), return `none` on `JSONDecodeError`. -/
def jsonLoads (text : String) : Option Json :=
  match parseValue (2 * text.length + 2) text.data with
  | some (v, rest) => if skipWs rest = [] then some v else none
  | none => none

/-- Python regex `\s` on the characters our inputs contain (the ASCII
whitespace class; further Unicode space characters are not modelled). -/
def isPyWs (c : Char) : Bool :=
  c = ' ' || c = '\t' || c = '\n' || c = '\r' || c = '\x0c' || c = '\x0b'

/-- Characters before the earliest occurrence of a triple backtick;
`none` when no closing triple backtick exists. -/
def upToFence : List Char → Option (List Char)
  | '`' :: '`' :: '`' :: _ => some []
  | [] => none
  | c :: rest =>
    match upToFence rest with
    | some s => some (c :: s)
    | none => none

/-- Matches the part of `re.search(r"(json)?\s*\n?(.*?)\n?(fence)", text,
re.DOTALL)` that follows an opening triple backtick (the pattern is
spelled with backtick fences in the source): optionally consume a `json`
tag, greedily consume whitespace, then lazily capture up to the earliest
closing triple backtick, the optional final newline being consumed by the
`\n?` just before the closing fence. -/
def fenceTail (cs : List Char) : Option (List Char) :=
  let cs1 := if cs.take 4 = ['j', 's', 'o', 'n'] then cs.drop 4 else cs
  let cs2 := cs1.dropWhile isPyWs
  match upToFence cs2 with
  | some cap =>
    some (if cap.getLast? = some '\n' then cap.dropLast else cap)
  | none => none

/-- Leftmost-match search for the fenced-block pattern: try every
position for an opening triple backtick whose tail matches. -/
def scanFence : List Char → Option (List Char)
  | [] => none
  | c :: rest =>
    match c :: rest with
    | '`' :: '`' :: '`' :: tail =>
      match fenceTail tail with
      | some cap => some cap
      | none => scanFence rest
    | _ => scanFence rest

/-- Model of `re.search(r"(fence)(json)?\s*\n?(.*?)\n?(fence)", text,
re.DOTALL)` followed by `.group(1)`. -/
def extractFenced (text : String) : Option String :=
  (scanFence text.data).map String.mk

/-- Index of the first occurrence of `c`, if any. -/
def firstIdx (c : Char) : List Char → Option Nat
  | [] => none
  | x :: rest =>
    if x = c then some 0
    else (firstIdx c rest).map (· + 1)

/-- Model of `re.search(r"\x7b.*\x7d", text, re.DOTALL)` followed by
`.group(0)`: the span from the first opening brace through the last
closing brace, when the first `\x7b` precedes the last `\x7d`. -/
def braceSpan (cs : List Char) : Option (List Char) :=
  match firstIdx '\x7b' cs, firstIdx '\x7d' cs.reverse with
  | some i, some jr =>
    let j := cs.length - 1 - jr
    if i < j then some ((cs.drop i).take (j - i + 1)) else none
  | _, _ => none

/-- Third extraction tier of `LLMRouter.parse_json`: parse the brace
span; `Json.null` is Python `None`. -/
def braceTier (text : String) : Json :=
  match braceSpan text.data with
  | some span =>
    match jsonLoads (String.mk span) with
    | some v => v
    | none => Json.null
  | none => Json.null

/-- Model of `LLMRouter.parse_json` (src/services/llm_router.py lines
109-131): direct parse, then markdown code-fence interior, then bare
first-brace-to-last-brace span; a tier that fails to parse is skipped,
and `Json.null` (Python `None`) results when everything fails. -/
def parse_json (text : String) : Json :=
  match jsonLoads text with
  | some v => v
  | none =>
    match extractFenced text with
    | some inner =>
      match jsonLoads inner with
      | some v => v
      | none => braceTier text
    | none => braceTier text

/-- State of the usage counters of `LLMRouter` (total_prompt_tokens,
total_completion_tokens, total_calls), as updated by `_track_usage`. -/
structure UsageState where
  total_prompt_tokens : Nat
  total_completion_tokens : Nat
  total_calls : Nat

/-- Model of `LLMRouter.get_usage_summary` (src/services/llm_router.py
lines 52-60): the returned dict, as an ordered key-value list. -/
def get_usage_summary (s : UsageState) : List (String × Nat) :=
  [("total_calls", s.total_calls),
   ("total_prompt_tokens", s.total_prompt_tokens),
   ("total_completion_tokens", s.total_completion_tokens),
   ("total_tokens", s.total_prompt_tokens + s.total_completion_tokens)]

end LLMRouter

/-- Model of core.models.PageData (src/core/models.py): the immutable
signal snapshot read by every agent. Python floats are exact rationals,
the alt-text and heading dicts are association lists. -/
structure PageData where
  url : String
  title : String := ""
  meta_description : String := ""
  text_content : String := ""
  image_urls : List String := []
  images_alt_texts : List (String × String) := []
  internal_links : List String := []
  external_links : List String := []
  headings : List (String × List String) := []
  has_ssl : Bool := false
  has_viewport_meta : Bool := false
  has_charset : Bool := false
  has_lang_attr : Bool := false
  has_favicon : Bool := false
  has_structured_data : Bool := false
  has_privacy_policy : Bool := false
  has_contact_info : Bool := false
  social_links : List String := []
  forms_count : Nat := 0
  scripts_count : Nat := 0
  stylesheets_count : Nat := 0
  html_size_kb : ℚ := 0
  load_time_seconds : ℚ := 0
  status_code : Int := 200

/-- Model of core.models.AgentResult (src/core/models.py). The findings
and summary fields hold `Json` because on the generative path they carry
whatever the parsed response object contained, without type checks. -/
structure AgentResult where
  agent_name : String
  score : ℚ := 50
  findings : Json := Json.arr []
  summary : Json := Json.str ""

/-- Outcome of one call to the external generative capability as seen by
an agent: the call raised some error, or it returned this raw text. -/
inductive LLMOutcome where
  | err : LLMOutcome
  | ok : String → LLMOutcome

/-- Lookup in a parsed JSON object, last occurrence winning, matching the
semantics of the Python dict that `json.loads` builds. -/
def jsonLookup (kvs : List (String × Json)) (k : String) : Option Json :=
  match kvs with
  | [] => none
  | (k0, v0) :: rest =>
    match jsonLookup rest k with
    | some v => some v
    | none => if k0 = k then some v0 else none

/-- Python `data.get(k, dflt)` on a parsed response object. -/
def dictGet (data : Json) (k : String) (dflt : Json) : Json :=
  match data with
  | Json.obj kvs => (jsonLookup kvs k).getD dflt
  | _ => dflt

/-- Model of Python `float(str)` on plain decimal strings: optional
whitespace and sign, digits with an optional fractional part (exponents,
`inf`/`nan` and digit underscores are not modelled; no claim exercises
them). `none` models ValueError. -/
def strToRat (s : String) : Option ℚ :=
  let cs := ((s.data.dropWhile LLMRouter.isPyWs).reverse.dropWhile LLMRouter.isPyWs).reverse
  let (neg, cs1) :=
    match cs with
    | '-' :: r => (true, r)
    | '+' :: r => (false, r)
    | _ => (false, cs)
  let ids := cs1.takeWhile Char.isDigit
  let cs2 := cs1.dropWhile Char.isDigit
  let mag : Option ℚ :=
    match cs2 with
    | [] => if ids = [] then none else some ((LLMRouter.digitsToNat ids : ℚ))
    | '.' :: rest =>
      let fds := rest.takeWhile Char.isDigit
      if rest.dropWhile Char.isDigit ≠ [] then none
      else if ids = [] ∧ fds = [] then none
      else some ((LLMRouter.digitsToNat ids : ℚ)
        + (LLMRouter.digitsToNat fds : ℚ) / ((10 ^ fds.length : ℕ) : ℚ))
    | _ => none
  mag.map (fun q => if neg then -q else q)

/-- Model of Python `float(x)` on JSON values: numbers pass through,
bools are the ints 1 and 0, numeric strings convert, and everything else
raises (`none`). -/
def pyFloat : Json → Option ℚ
  | Json.num q => some q
  | Json.bool b => some (if b then 1 else 0)
  | Json.str s => strToRat s
  | _ => none

/-- The guard-and-convert step shared by the agents' generative paths:
`if data and "score" in data:` followed by `float(data["score"])`.
Returns the converted score when `data` is a dict containing "score"
whose value `float` accepts; `none` collapses every way the Python code
reaches its fallback instead (falsy data, `in` applied to a non-dict
raising TypeError inside the try, a missing key, or an unconvertible
score value raising ValueError/TypeError). -/
def scoreFromData : Json → Option ℚ
  | Json.obj kvs =>
    match jsonLookup kvs "score" with
    | some v => pyFloat v
    | none => none
  | _ => none

/-- Python `+` on the value types `json.loads` can produce (bool is an
int subclass); `none` models TypeError. -/
def pyAdd : Json → Json → Option Json
  | Json.arr a, Json.arr b => some (Json.arr (a ++ b))
  | Json.str a, Json.str b => some (Json.str (a ++ b))
  | Json.num a, Json.num b => some (Json.num (a + b))
  | Json.num a, Json.bool b => some (Json.num (a + if b then 1 else 0))
  | Json.bool a, Json.num b => some (Json.num ((if a then 1 else 0) + b))
  | Json.bool a, Json.bool b => some (Json.num ((if a then 1 else 0) + (if b then 1 else 0)))
  | _, _ => none

/-- Round half to even to an integer, as CPython's `round` does. -/
def roundHalfEven (x : ℚ) : ℤ :=
  if x - (⌊x⌋ : ℚ) < 1 / 2 then ⌊x⌋
  else if 1 / 2 < x - (⌊x⌋ : ℚ) then ⌊x⌋ + 1
  else if ⌊x⌋ % 2 = 0 then ⌊x⌋ else ⌊x⌋ + 1

/-- Model of Python `round(x, 1)` on the exact rational value. -/
def pyRound1 (x : ℚ) : ℚ := ((roundHalfEven (10 * x) : ℤ) : ℚ) / 10

/-- Rendering of a numeric value inside an f-string: integral values
print like Python ints; other values are shown as num/den, abstracting
CPython float repr (no claim inspects an interpolated non-integral
number). -/
def pyNum (q : ℚ) : String :=
  if q.den = 1 then toString q.num else toString q.num ++ "/" ++ toString q.den

namespace TrustAgent

/-- AGENT_NAME of src/agents/trust_agent.py. -/
def AGENT_NAME : String := "Trust & Credibility"

/-- Model of trust_agent._fallback (src/agents/trust_agent.py lines
46-94). Each Python if/else block that updates score and appends a
finding is rendered as a pair of conditionals on the same condition. -/
def _fallback (p : PageData) : AgentResult :=
  let score : ℚ := 20
  let findings : List Json := []
  let score := if p.has_ssl then score + 20 else score
  let findings := findings ++
    (if p.has_ssl then [Json.str "HTTPS / SSL enabled ✓"]
     else [Json.str "No HTTPS — major trust concern"])
  let score := if p.has_privacy_policy then score + 15 else score
  let findings := findings ++
    (if p.has_privacy_policy then [Json.str "Privacy policy detected ✓"]
     else [Json.str "No privacy policy found"])
  let score := if p.has_contact_info then score + 15 else score
  let findings := findings ++
    (if p.has_contact_info then [Json.str "Contact information detected ✓"]
     else [Json.str "No contact information found"])
  let social_count := p.social_links.length
  let score :=
    if 2 ≤ social_count then score + 10
    else if social_count = 1 then score + 5
    else score
  let findings := findings ++
    (if 2 ≤ social_count then
      [Json.str (toString social_count ++ " social media links — good legitimacy signal")]
     else if social_count = 1 then [Json.str "1 social media link found"]
     else [Json.str "No social media links"])
  let score := if p.has_structured_data then score + 10 else score
  let findings := findings ++
    (if p.has_structured_data then [Json.str "Structured data (schema.org) present ✓"] else [])
  let score := if p.title ≠ "" ∧ p.meta_description ≠ "" then score + 5 else score
  let findings := findings ++
    (if p.title ≠ "" ∧ p.meta_description ≠ "" then
      [Json.str "Professional title and meta description present"]
     else [])
  let score := max 0 (min 100 score)
  { agent_name := AGENT_NAME,
    score := score,
    findings := Json.arr findings,
    summary := Json.str ("Rule-based analysis: SSL="
      ++ (if p.has_ssl then "yes" else "no")
      ++ ", privacy=" ++ (if p.has_privacy_policy then "yes" else "no")
      ++ ", contact=" ++ (if p.has_contact_info then "yes" else "no") ++ ".") }

/-- Model of trust_agent.analyze (src/agents/trust_agent.py lines
97-128): the generative path uses the parsed score, findings and
summary; a raised error or an unusable parse falls back. The whole body
is inside try/except, so the function is total. -/
def analyze (p : PageData) (o : LLMOutcome) : AgentResult :=
  match o with
  | LLMOutcome.err => _fallback p
  | LLMOutcome.ok raw =>
    let data := LLMRouter.parse_json raw
    match scoreFromData data with
    | some q =>
      { agent_name := AGENT_NAME, score := q,
        findings := dictGet data "findings" (Json.arr []),
        summary := dictGet data "summary" (Json.str "") }
    | none => _fallback p

end TrustAgent

namespace TextAgent

/-- AGENT_NAME of src/agents/text_agent.py. -/
def AGENT_NAME : String := "Content Quality"

/-- Model of text_agent._fallback (src/agents/text_agent.py lines
40-86). -/
def _fallback (p : PageData) : AgentResult :=
  let score : ℚ := 30
  let findings : List Json := []
  let text_len := p.text_content.length
  let score :=
    if 2000 < text_len then score + 20
    else if 500 < text_len then score + 10
    else score
  let findings := findings ++
    (if 2000 < text_len then
      [Json.str ("Good content volume (" ++ toString text_len ++ " characters)")]
     else if 500 < text_len then
      [Json.str ("Moderate content volume (" ++ toString text_len ++ " characters)")]
     else [Json.str ("Very thin content (" ++ toString text_len ++ " characters)")])
  let score := if p.title ≠ "" then score + 10 else score - 10
  let findings := findings ++
    (if p.title ≠ "" then
      [Json.str ("Page title present: \"" ++ p.title.take 60 ++ "\"")]
     else [Json.str "Missing page title"])
  let score := if p.meta_description ≠ "" then score + 10 else score
  let findings := findings ++
    (if p.meta_description ≠ "" then [Json.str "Meta description present"]
     else [Json.str "Missing meta description"])
  let h1s := (List.lookup "h1" p.headings).getD []
  let score := if h1s ≠ [] then score + 10 else score
  let findings := findings ++
    (match h1s with
     | h :: _ => [Json.str ("H1 heading found: \"" ++ h.take 60 ++ "\"")]
     | [] => [Json.str "No H1 heading found"])
  let heading_count := (p.headings.map (fun kv => kv.2.length)).sum
  let score := if 3 ≤ heading_count then score + 5 else score
  let findings := findings ++
    (if 3 ≤ heading_count then
      [Json.str (toString heading_count ++ " headings provide good structure")]
     else [])
  let score := max 0 (min 100 score)
  { agent_name := AGENT_NAME,
    score := score,
    findings := Json.arr findings,
    summary := Json.str ("Rule-based analysis: " ++ toString text_len
      ++ " chars of content evaluated.") }

/-- Model of text_agent.analyze (src/agents/text_agent.py lines
89-114). -/
def analyze (p : PageData) (o : LLMOutcome) : AgentResult :=
  match o with
  | LLMOutcome.err => _fallback p
  | LLMOutcome.ok raw =>
    let data := LLMRouter.parse_json raw
    match scoreFromData data with
    | some q =>
      { agent_name := AGENT_NAME, score := q,
        findings := dictGet data "findings" (Json.arr []),
        summary := dictGet data "summary" (Json.str "") }
    | none => _fallback p

end TextAgent

namespace UxAgent

/-- AGENT_NAME of src/agents/ux_agent.py. -/
def AGENT_NAME : String := "User Experience"

/-- Model of ux_agent._fallback (src/agents/ux_agent.py lines 47-109). -/
def _fallback (p : PageData) : AgentResult :=
  let score : ℚ := 30
  let findings : List Json := []
  let h1s := (List.lookup "h1" p.headings).getD []
  let h2s := (List.lookup "h2" p.headings).getD []
  let score :=
    if h1s.length = 1 then score + 10
    else if 1 < h1s.length then score + 5
    else score
  let findings := findings ++
    (if h1s.length = 1 then
      [Json.str ("Single H1 heading present: \"" ++ (h1s.headD "").take 50 ++ "\"")]
     else if 1 < h1s.length then
      [Json.str ("Multiple H1 headings (" ++ toString h1s.length
        ++ ") — should have exactly one")]
     else [Json.str "No H1 heading — poor hierarchy"])
  let score := if h2s ≠ [] then score + 5 else score
  let findings := findings ++
    (if h2s ≠ [] then [Json.str (toString h2s.length ++ " H2 subheadings found")] else [])
  let score := if p.has_viewport_meta then score + 15 else score
  let findings := findings ++
    (if p.has_viewport_meta then [Json.str "Viewport meta tag present — mobile-friendly ✓"]
     else [Json.str "No viewport meta tag — not mobile-optimized"])
  let score := if p.has_lang_attr then score + 5 else score
  let findings := findings ++
    (if p.has_lang_attr then [Json.str "Language attribute set ✓"] else [])
  let int_links := p.internal_links.length
  let score :=
    if 10 ≤ int_links then score + 10
    else if 3 ≤ int_links then score + 5
    else score
  let findings := findings ++
    (if 10 ≤ int_links then
      [Json.str (toString int_links ++ " internal links — good navigation")]
     else if 3 ≤ int_links then
      [Json.str (toString int_links ++ " internal links — moderate navigation")]
     else [Json.str ("Only " ++ toString int_links ++ " internal links — weak navigation")])
  let lt := p.load_time_seconds
  let score :=
    if lt < 2 then score + 10
    else if lt < 5 then score + 5
    else score
  let findings := findings ++
    (if lt < 2 then [Json.str ("Fast load time (" ++ pyNum lt ++ "s)")]
     else if lt < 5 then [Json.str ("Acceptable load time (" ++ pyNum lt ++ "s)")]
     else [Json.str ("Slow load time (" ++ pyNum lt ++ "s)")])
  let score := max 0 (min 100 score)
  { agent_name := AGENT_NAME,
    score := score,
    findings := Json.arr findings,
    summary := Json.str ("Rule-based analysis: " ++ toString int_links
      ++ " links, viewport=" ++ (if p.has_viewport_meta then "yes" else "no")
      ++ ", load=" ++ pyNum lt ++ "s.") }

/-- Model of ux_agent.analyze (src/agents/ux_agent.py lines 112-143). -/
def analyze (p : PageData) (o : LLMOutcome) : AgentResult :=
  match o with
  | LLMOutcome.err => _fallback p
  | LLMOutcome.ok raw =>
    let data := LLMRouter.parse_json raw
    match scoreFromData data with
    | some q =>
      { agent_name := AGENT_NAME, score := q,
        findings := dictGet data "findings" (Json.arr []),
        summary := dictGet data "summary" (Json.str "") }
    | none => _fallback p

end UxAgent

namespace TechAgent

/-- AGENT_NAME of src/agents/tech_agent.py. -/
def AGENT_NAME : String := "Technical Health"

/-- Model of tech_agent._fallback (src/agents/tech_agent.py lines
51-125). -/
def _fallback (p : PageData) : AgentResult :=
  let score : ℚ := 20
  let findings : List Json := []
  let lt := p.load_time_seconds
  let score :=
    if lt < 1 then score + 15
    else if lt < 2 then score + 12
    else if lt < 5 then score + 5
    else score
  let findings := findings ++
    (if lt < 1 then [Json.str ("Excellent load time (" ++ pyNum lt ++ "s)")]
     else if lt < 2 then [Json.str ("Good load time (" ++ pyNum lt ++ "s)")]
     else if lt < 5 then [Json.str ("Moderate load time (" ++ pyNum lt ++ "s)")]
     else [Json.str ("Slow load time (" ++ pyNum lt ++ "s)")])
  let size := p.html_size_kb
  let score :=
    if size < 100 then score + 10
    else if size < 500 then score + 5
    else score
  let findings := findings ++
    (if size < 100 then [Json.str ("Lightweight page (" ++ pyNum size ++ " KB)")]
     else if size < 500 then [Json.str ("Moderate page size (" ++ pyNum size ++ " KB)")]
     else [Json.str ("Heavy page (" ++ pyNum size ++ " KB)")])
  let score := if p.has_ssl then score + 10 else score
  let findings := findings ++
    (if p.has_ssl then [Json.str "HTTPS enabled ✓"] else [])
  let score := if p.title ≠ "" then score + 5 else score
  let findings := findings ++
    (if p.title ≠ "" then [Json.str "Title tag present ✓"]
     else [Json.str "Missing title tag"])
  let score := if p.meta_description ≠ "" then score + 5 else score
  let findings := findings ++
    (if p.meta_description ≠ "" then [Json.str "Meta description present ✓"]
     else [Json.str "Missing meta description"])
  let score := if p.has_viewport_meta then score + 5 else score
  let findings := findings ++
    (if p.has_viewport_meta then [Json.str "Viewport meta present ✓"] else [])
  let score := if p.has_charset then score + 3 else score
  let findings := findings ++
    (if p.has_charset then [Json.str "Charset declared ✓"] else [])
  let score := if p.has_lang_attr then score + 3 else score
  let findings := findings ++
    (if p.has_lang_attr then [Json.str "Language attribute set ✓"] else [])
  let score := if p.has_favicon then score + 3 else score
  let findings := findings ++
    (if p.has_favicon then [Json.str "Favicon present ✓"] else [])
  let score := if p.has_structured_data then score + 5 else score
  let findings := findings ++
    (if p.has_structured_data then [Json.str "Structured data found ✓"] else [])
  let score := if 20 < p.scripts_count then score - 5 else score
  let findings := findings ++
    (if 20 < p.scripts_count then
      [Json.str ("High script count (" ++ toString p.scripts_count ++ ")")]
     else if 0 < p.scripts_count then
      [Json.str (toString p.scripts_count ++ " scripts loaded")]
     else [])
  let score := max 0 (min 100 score)
  { agent_name := AGENT_NAME,
    score := score,
    findings := Json.arr findings,
    summary := Json.str ("Rule-based analysis: load=" ++ pyNum lt ++ "s, size="
      ++ pyNum size ++ "KB, " ++ toString p.scripts_count ++ " scripts.") }

/-- Model of tech_agent.analyze (src/agents/tech_agent.py lines
128-164). -/
def analyze (p : PageData) (o : LLMOutcome) : AgentResult :=
  match o with
  | LLMOutcome.err => _fallback p
  | LLMOutcome.ok raw =>
    let data := LLMRouter.parse_json raw
    match scoreFromData data with
    | some q =>
      { agent_name := AGENT_NAME, score := q,
        findings := dictGet data "findings" (Json.arr []),
        summary := dictGet data "summary" (Json.str "") }
    | none => _fallback p

end TechAgent

namespace VisualAgent

/-- AGENT_NAME of src/agents/visual_agent.py. -/
def AGENT_NAME : String := "Visual Quality"

/-- Model of visual_agent._fallback (src/agents/visual_agent.py lines
53-89). `strip` truthiness is `String.trim` being non-empty. -/
def _fallback (p : PageData) : AgentResult :=
  let score : ℚ := 30
  let findings : List Json := []
  let image_count := p.image_urls.length
  let alt_texts := p.images_alt_texts
  let alt_count :=
    (p.image_urls.filter (fun url => ((List.lookup url alt_texts).getD "").trim ≠ "")).length
  let score :=
    if image_count = 0 then score - 10
    else if image_count ≤ 2 then score + 10
    else score + 20
  let findings := findings ++
    (if image_count = 0 then [Json.str "No images found on page"]
     else if image_count ≤ 2 then
      [Json.str (toString image_count ++ " image(s) found — minimal visuals")]
     else [Json.str (toString image_count ++ " images found — good visual presence")])
  let pct : ℤ := roundHalfEven ((alt_count : ℚ) / (image_count : ℚ) * 100)
  let score :=
    if 0 < image_count then
      (if pct = 100 then score + 20 else if 50 ≤ pct then score + 10 else score)
    else score
  let findings := findings ++
    (if 0 < image_count then
      (if pct = 100 then
        [Json.str ("All " ++ toString image_count ++ " images have alt-text ✓")]
       else if 50 ≤ pct then
        [Json.str (toString alt_count ++ "/" ++ toString image_count
          ++ " images have alt-text (" ++ toString pct ++ "%)")]
       else
        [Json.str ("Only " ++ toString alt_count ++ "/" ++ toString image_count
          ++ " images have alt-text (" ++ toString pct ++ "%) — poor accessibility")])
     else [])
  let score := max 0 (min 100 score)
  { agent_name := AGENT_NAME,
    score := score,
    findings := Json.arr findings,
    summary := Json.str ("Rule-based analysis: " ++ toString image_count
      ++ " image(s), " ++ toString alt_count ++ " with alt-text.") }

/-- Shared shape of the two generative phases of visual_agent.analyze:
each phase's try-block either records a parsed score and findings, or
leaves them unset (`none`) when the call raises, the parse is unusable,
or the score is unconvertible. -/
def phaseResult (o : LLMOutcome) : Option (ℚ × Json) :=
  match o with
  | LLMOutcome.err => none
  | LLMOutcome.ok raw =>
    let data := LLMRouter.parse_json raw
    match scoreFromData data with
    | some q => some (q, dictGet data "findings" (Json.arr []))
    | none => none

/-- Model of visual_agent.analyze (src/agents/visual_agent.py lines
92-156): the metadata phase always runs, the vision phase only when at
least one image URL exists; both scores blend 0.6/0.4, one score is used
alone, no score falls back to the rule-based scorer. The blending step
concatenates findings with Python `+` outside any try-block, so a
TypeError there propagates: `none` models that uncaught exception. -/
def analyze (p : PageData) (metaOut visionOut : LLMOutcome) : Option AgentResult :=
  let image_count := p.image_urls.length
  let metaRes := phaseResult metaOut
  let visionRes := if p.image_urls ≠ [] then phaseResult visionOut else none
  match metaRes, visionRes with
  | some (m, fm), some (v, fv) =>
    let final_score := pyRound1 (v * 0.6 + m * 0.4)
    match pyAdd fm fv with
    | some allF =>
      some { agent_name := AGENT_NAME, score := final_score, findings := allF,
             summary := Json.str ("Visual score " ++ pyNum final_score
               ++ "/100 based on " ++ toString image_count ++ " image(s).") }
    | none => none
  | none, some (v, fv) =>
    some { agent_name := AGENT_NAME, score := v, findings := fv,
           summary := Json.str ("Visual score " ++ pyNum v
             ++ "/100 based on " ++ toString image_count ++ " image(s).") }
  | some (m, fm), none =>
    some { agent_name := AGENT_NAME, score := m, findings := fm,
           summary := Json.str ("Visual score " ++ pyNum m
             ++ "/100 based on " ++ toString image_count ++ " image(s).") }
  | none, none => some (_fallback p)

end VisualAgent

namespace Scoring

/-- Model of WEIGHTS (src/core/scoring.py lines 5-11). -/
def WEIGHTS : List (String × ℚ) :=
  [("text", 0.25), ("visual", 0.15), ("ux", 0.25), ("trust", 0.20), ("tech", 0.15)]

/-- Dict subscript on the weight table; all five keys are present, so the
default is never reached. -/
def weight (k : String) : ℚ := (List.lookup k WEIGHTS).getD 0

/-- Model of _get_grade (src/core/scoring.py lines 33-45). -/
def _get_grade (score : ℚ) : String :=
  if 90 ≤ score then "A+"
  else if 80 ≤ score then "A"
  else if 70 ≤ score then "B"
  else if 60 ≤ score then "C"
  else if 50 ≤ score then "D"
  else "F"

/-- Model of calculate_ceps_score (src/core/scoring.py lines 14-30). -/
def calculate_ceps_score (text_result visual_result ux_result trust_result
    tech_result : AgentResult) : ℚ × String :=
  let overall :=
    text_result.score * weight "text"
    + visual_result.score * weight "visual"
    + ux_result.score * weight "ux"
    + trust_result.score * weight "trust"
    + tech_result.score * weight "tech"
  let overall := pyRound1 overall
  (overall, _get_grade overall)

end Scoring

namespace App

/-- Python dict subscript over a key-value list: KeyError when the key is
missing, modelled in `Except`. -/
def pyDictGet (d : List (String × Nat)) (k : String) : Except String Nat :=
  match List.lookup k d with
  | some v => Except.ok v
  | none => Except.error ("KeyError: " ++ k)

/-- Model of the terminal-summary tail of app._run_analysis (src/app.py
lines 100-122): after the composite score is computed, the summary block
subscripts the usage mapping in source order and only then does the
function return its result tuple; a missing key aborts the whole function
with a KeyError. -/
def run_analysis_tail (overall : ℚ) (grade : String) (usage : List (String × Nat)) :
    Except String (ℚ × String × List (String × Nat)) := do
  let _ ← pyDictGet usage "total_calls"
  let _ ← pyDictGet usage "total_retries"
  let _ ← pyDictGet usage "total_prompt_tokens"
  let _ ← pyDictGet usage "total_completion_tokens"
  let _ ← pyDictGet usage "total_tokens"
  Except.ok (overall, grade, usage)

end App

/-- Non-empty JSON array check, used to state that a findings value is a
non-empty list. -/
def jsonNonemptyList : Json → Bool
  | Json.arr (_ :: _) => true
  | _ => false

/-- Whether a parsed response is an object carrying a "score" key. -/
def hasScoreKey : Json → Bool
  | Json.obj kvs => (jsonLookup kvs "score").isSome
  | _ => false

/-- An LLM outcome whose parsed score, when one exists, lies in
[0,100]. -/
def outcomeScoreBounded (o : LLMOutcome) : Prop :=
  ∀ raw q, o = LLMOutcome.ok raw →
    scoreFromData (LLMRouter.parse_json raw) = some q → 0 ≤ q ∧ q ≤ 100

/-- The rich trust snapshot of the end-to-end test property: SSL,
privacy policy, contact info, three social links, structured data, and a
non-empty title and meta description. -/
def richTrustPage : PageData :=
  { url := "https://example.com",
    title := "Example Site",
    meta_description := "An example site",
    has_ssl := true,
    has_privacy_policy := true,
    has_contact_info := true,
    has_structured_data := true,
    social_links := ["https://twitter.com/ex", "https://facebook.com/ex",
      "https://github.com/ex"] }

/-- A snapshot with exactly one image URL, for the concrete blending
example. -/
def visualOnePage : PageData :=
  { url := "https://one.example", image_urls := ["https://one.example/hero.png"] }

/-- A metadata-phase response carrying score 80. -/
def visualMetaRaw : String := "\x7b\"score\": 80\x7d"

/-- A vision-phase response carrying score 60. -/
def visualVisionRaw : String := "\x7b\"score\": 60\x7d"

/-- The bare response object of the fence-transparency property. -/
def bareObjText : String :=
  "\x7b\"score\": 72, \"findings\": [\"x\"], \"summary\": \"y\"\x7d"

section Helpers

/-- The clamp `max(0, min(100, s))` is at least 0. -/
theorem clamp_nonneg (s : ℚ) : 0 ≤ max 0 (min 100 s) := le_max_left 0 _

/-- The clamp `max(0, min(100, s))` is at most 100. -/
theorem clamp_le (s : ℚ) : max 0 (min 100 s) ≤ 100 :=
  max_le (by norm_num) (min_le_left _ _)

/-- A rational at least half past its floor and bounded by an integer
leaves room above the floor. -/
theorem floor_succ_le (x : ℚ) (B : ℤ) (hx : x ≤ (B : ℚ)) (hfB : ⌊x⌋ ≤ B)
    (hh : 1 / 2 ≤ x - (⌊x⌋ : ℚ)) : ⌊x⌋ + 1 ≤ B := by
  rcases lt_or_eq_of_le hfB with h | h
  · omega
  · exfalso
    have hBQ : ((⌊x⌋ : ℤ) : ℚ) = (B : ℚ) := by exact_mod_cast h
    linarith

/-- Round-half-even of a nonnegative rational is nonnegative. -/
theorem roundHalfEven_nonneg (x : ℚ) (hx : 0 ≤ x) : 0 ≤ roundHalfEven x := by
  have hf : (0 : ℤ) ≤ ⌊x⌋ := Int.floor_nonneg.mpr hx
  unfold roundHalfEven
  split_ifs <;> omega

/-- Round-half-even respects an integer upper bound. -/
theorem roundHalfEven_le (x : ℚ) (B : ℤ) (hx : x ≤ (B : ℚ)) : roundHalfEven x ≤ B := by
  have hfB : ⌊x⌋ ≤ B := by
    have h := Int.floor_le_floor hx
    simpa using h
  unfold roundHalfEven
  split_ifs with h1 h2 h3
  · exact hfB
  · exact floor_succ_le x B hx hfB (by linarith [not_lt.mp h1])
  · exact hfB
  · exact floor_succ_le x B hx hfB (not_lt.mp h1)

/-- `round(x, 1)` of a nonnegative value is nonnegative. -/
theorem pyRound1_nonneg (x : ℚ) (hx : 0 ≤ x) : 0 ≤ pyRound1 x := by
  unfold pyRound1
  have h := roundHalfEven_nonneg (10 * x) (by linarith)
  have h2 : (0 : ℚ) ≤ ((roundHalfEven (10 * x) : ℤ) : ℚ) := by exact_mod_cast h
  positivity

/-- `round(x, 1)` of a value at most 100 is at most 100. -/
theorem pyRound1_le_100 (x : ℚ) (hx : x ≤ 100) : pyRound1 x ≤ 100 := by
  unfold pyRound1
  have h10 : 10 * x ≤ ((1000 : ℤ) : ℚ) := by push_cast; linarith
  have h := roundHalfEven_le (10 * x) 1000 h10
  have h2 : ((roundHalfEven (10 * x) : ℤ) : ℚ) ≤ 1000 := by exact_mod_cast h
  rw [div_le_iff₀ (by norm_num : (0 : ℚ) < 10)]
  linarith

end Helpers

/-- C4: the grade function is total and maps scores by inclusive
descending thresholds — exactly one grade applies to every score (the six
characterizations below are mutually exclusive and exhaustive), with
90 ≤ s giving "A+", 80 ≤ s < 90 giving "A", 70 ≤ s < 80 giving "B",
60 ≤ s < 70 giving "C", 50 ≤ s < 60 giving "D" and s < 50 giving "F";
in particular 90.0 → "A+", 89.9 → "A" and 49.9 → "F". -/
theorem grade_partition :
    (∀ s : ℚ,
      (Scoring._get_grade s = "A+" ↔ 90 ≤ s)
      ∧ (Scoring._get_grade s = "A" ↔ 80 ≤ s ∧ s < 90)
      ∧ (Scoring._get_grade s = "B" ↔ 70 ≤ s ∧ s < 80)
      ∧ (Scoring._get_grade s = "C" ↔ 60 ≤ s ∧ s < 70)
      ∧ (Scoring._get_grade s = "D" ↔ 50 ≤ s ∧ s < 60)
      ∧ (Scoring._get_grade s = "F" ↔ s < 50))
    ∧ Scoring._get_grade 90 = "A+"
    ∧ Scoring._get_grade (899 / 10) = "A"
    ∧ Scoring._get_grade (499 / 10) = "F" := by
  refine ⟨fun s => ?_, by norm_num [Scoring._get_grade], by norm_num [Scoring._get_grade],
    by norm_num [Scoring._get_grade]⟩
  unfold Scoring._get_grade
  split_ifs with h1 h2 h3 h4 h5 <;>
    refine ⟨?_, ?_, ?_, ?_, ?_, ?_⟩ <;> simp <;>
    first
      | linarith
      | (constructor <;> linarith)
      | (rintro ⟨ha, hb⟩; linarith)
      | (intro hh; linarith)

/-- C3: for five AgentResults with scores in [0,100],
calculate_ceps_score returns overall = round(text*0.25 + visual*0.15 +
ux*0.25 + trust*0.20 + tech*0.15, 1), and this overall lies in
[0,100]. -/
theorem calculate_ceps_score_formula_and_range
    (t v u tr te : AgentResult)
    (ht0 : 0 ≤ t.score) (ht1 : t.score ≤ 100)
    (hv0 : 0 ≤ v.score) (hv1 : v.score ≤ 100)
    (hu0 : 0 ≤ u.score) (hu1 : u.score ≤ 100)
    (htr0 : 0 ≤ tr.score) (htr1 : tr.score ≤ 100)
    (hte0 : 0 ≤ te.score) (hte1 : te.score ≤ 100) :
    (Scoring.calculate_ceps_score t v u tr te).1
      = pyRound1 (t.score * 0.25 + v.score * 0.15 + u.score * 0.25
                  + tr.score * 0.20 + te.score * 0.15)
    ∧ 0 ≤ (Scoring.calculate_ceps_score t v u tr te).1
    ∧ (Scoring.calculate_ceps_score t v u tr te).1 ≤ 100 := by
  have hw : (Scoring.calculate_ceps_score t v u tr te).1
      = pyRound1 (t.score * 0.25 + v.score * 0.15 + u.score * 0.25
                  + tr.score * 0.20 + te.score * 0.15) := rfl
  refine ⟨hw, ?_, ?_⟩
  · rw [hw]
    apply pyRound1_nonneg
    have h1 := mul_nonneg ht0 (show (0 : ℚ) ≤ 0.25 by norm_num)
    have h2 := mul_nonneg hv0 (show (0 : ℚ) ≤ 0.15 by norm_num)
    have h3 := mul_nonneg hu0 (show (0 : ℚ) ≤ 0.25 by norm_num)
    have h4 := mul_nonneg htr0 (show (0 : ℚ) ≤ 0.20 by norm_num)
    have h5 := mul_nonneg hte0 (show (0 : ℚ) ≤ 0.15 by norm_num)
    linarith
  · rw [hw]
    apply pyRound1_le_100
    have h1 := mul_le_mul_of_nonneg_right ht1 (show (0 : ℚ) ≤ 0.25 by norm_num)
    have h2 := mul_le_mul_of_nonneg_right hv1 (show (0 : ℚ) ≤ 0.15 by norm_num)
    have h3 := mul_le_mul_of_nonneg_right hu1 (show (0 : ℚ) ≤ 0.25 by norm_num)
    have h4 := mul_le_mul_of_nonneg_right htr1 (show (0 : ℚ) ≤ 0.20 by norm_num)
    have h5 := mul_le_mul_of_nonneg_right hte1 (show (0 : ℚ) ≤ 0.15 by norm_num)
    linarith

/-- Witness for C3: the formula and range at the concrete score tuple
(80, 60, 70, 95, 50). -/
theorem calculate_ceps_score_formula_and_range_witness :
    (Scoring.calculate_ceps_score { agent_name := "t", score := 80 }
        { agent_name := "v", score := 60 } { agent_name := "u", score := 70 }
        { agent_name := "tr", score := 95 } { agent_name := "te", score := 50 }).1
      = pyRound1 ((80 : ℚ) * 0.25 + 60 * 0.15 + 70 * 0.25 + 95 * 0.20 + 50 * 0.15)
    ∧ 0 ≤ (Scoring.calculate_ceps_score { agent_name := "t", score := 80 }
        { agent_name := "v", score := 60 } { agent_name := "u", score := 70 }
        { agent_name := "tr", score := 95 } { agent_name := "te", score := 50 }).1
    ∧ (Scoring.calculate_ceps_score { agent_name := "t", score := 80 }
        { agent_name := "v", score := 60 } { agent_name := "u", score := 70 }
        { agent_name := "tr", score := 95 } { agent_name := "te", score := 50 }).1 ≤ 100 := by
  exact calculate_ceps_score_formula_and_range _ _ _ _ _
    (by norm_num) (by norm_num) (by norm_num) (by norm_num) (by norm_num)
    (by norm_num) (by norm_num) (by norm_num) (by norm_num) (by norm_num)

/-- C7: on the rich trust snapshot the Trust agent's rule-based fallback
returns score 95 = clamp(20+20+15+15+10+10+5), with a finding citing each
contributing signal. -/
theorem trust_fallback_rich_snapshot :
    (TrustAgent._fallback richTrustPage).score = 95
    ∧ (TrustAgent._fallback richTrustPage).findings = Json.arr
        [Json.str "HTTPS / SSL enabled ✓",
         Json.str "Privacy policy detected ✓",
         Json.str "Contact information detected ✓",
         Json.str "3 social media links — good legitimacy signal",
         Json.str "Structured data (schema.org) present ✓",
         Json.str "Professional title and meta description present"] := by
  constructor
  · show max 0 (min 100 (20 + 20 + 15 + 15 + 10 + 10 + 5 : ℚ)) = 95
    norm_num [min_def, max_def]
  · rfl

/-- C10: get_usage_summary always returns a mapping with exactly the four
keys total_calls, total_prompt_tokens, total_completion_tokens and
total_tokens — never a total_retries key — so on every run that reaches
the terminal summary of _run_analysis, the usage["total_retries"]
subscript raises KeyError before the function returns its result. -/
theorem usage_summary_keys_and_retries_keyerror
    (s : LLMRouter.UsageState) (overall : ℚ) (grade : String) :
    (LLMRouter.get_usage_summary s).map Prod.fst
      = ["total_calls", "total_prompt_tokens", "total_completion_tokens", "total_tokens"]
    ∧ List.lookup "total_retries" (LLMRouter.get_usage_summary s) = none
    ∧ App.run_analysis_tail overall grade (LLMRouter.get_usage_summary s)
      = Except.error "KeyError: total_retries" :=
  ⟨rfl, rfl, rfl⟩

/-- The trust fallback score is the clamp of its point total. -/
theorem trust_fallback_score_bounds (p : PageData) :
    0 ≤ (TrustAgent._fallback p).score ∧ (TrustAgent._fallback p).score ≤ 100 :=
  ⟨clamp_nonneg _, clamp_le _⟩

/-- The text fallback score is the clamp of its point total. -/
theorem text_fallback_score_bounds (p : PageData) :
    0 ≤ (TextAgent._fallback p).score ∧ (TextAgent._fallback p).score ≤ 100 :=
  ⟨clamp_nonneg _, clamp_le _⟩

/-- The ux fallback score is the clamp of its point total. -/
theorem ux_fallback_score_bounds (p : PageData) :
    0 ≤ (UxAgent._fallback p).score ∧ (UxAgent._fallback p).score ≤ 100 :=
  ⟨clamp_nonneg _, clamp_le _⟩

/-- The tech fallback score is the clamp of its point total. -/
theorem tech_fallback_score_bounds (p : PageData) :
    0 ≤ (TechAgent._fallback p).score ∧ (TechAgent._fallback p).score ≤ 100 :=
  ⟨clamp_nonneg _, clamp_le _⟩

/-- The visual fallback score is the clamp of its point total. -/
theorem visual_fallback_score_bounds (p : PageData) :
    0 ≤ (VisualAgent._fallback p).score ∧ (VisualAgent._fallback p).score ≤ 100 :=
  ⟨clamp_nonneg _, clamp_le _⟩

/-- The trust fallback always appends a finding in its first branch. -/
theorem trust_fallback_findings_nonempty (p : PageData) :
    jsonNonemptyList (TrustAgent._fallback p).findings = true := by
  by_cases h : p.has_ssl <;> simp [TrustAgent._fallback, h, jsonNonemptyList]

/-- The text fallback always appends a finding in its first branch. -/
theorem text_fallback_findings_nonempty (p : PageData) :
    jsonNonemptyList (TextAgent._fallback p).findings = true := by
  by_cases h1 : 2000 < p.text_content.length <;>
    by_cases h2 : 500 < p.text_content.length <;>
    simp [TextAgent._fallback, h1, h2, jsonNonemptyList]

/-- The ux fallback always appends a finding in its first branch. -/
theorem ux_fallback_findings_nonempty (p : PageData) :
    jsonNonemptyList (UxAgent._fallback p).findings = true := by
  by_cases h1 : ((List.lookup "h1" p.headings).getD []).length = 1 <;>
    by_cases h2 : 1 < ((List.lookup "h1" p.headings).getD []).length <;>
    simp [UxAgent._fallback, h1, h2, jsonNonemptyList]

/-- The tech fallback always appends a finding in its first branch. -/
theorem tech_fallback_findings_nonempty (p : PageData) :
    jsonNonemptyList (TechAgent._fallback p).findings = true := by
  by_cases h1 : p.load_time_seconds < 1 <;>
    by_cases h2 : p.load_time_seconds < 2 <;>
    by_cases h3 : p.load_time_seconds < 5 <;>
    simp [TechAgent._fallback, h1, h2, h3, jsonNonemptyList]

/-- The visual fallback always appends a finding in its first branch. -/
theorem visual_fallback_findings_nonempty (p : PageData) :
    jsonNonemptyList (VisualAgent._fallback p).findings = true := by
  by_cases h1 : p.image_urls.length = 0 <;>
    by_cases h2 : p.image_urls.length ≤ 2 <;>
    simp [VisualAgent._fallback, h1, h2, jsonNonemptyList]

/-- C6: for every snapshot — any field values, including zero images,
empty text and empty headings — each of the five rule-based fallback
scorers terminates without raising (it is a total function of the
snapshot) and returns a score in [0,100] together with a non-empty
findings list. -/
theorem fallback_total_in_range_nonempty (p : PageData) :
    (0 ≤ (TextAgent._fallback p).score ∧ (TextAgent._fallback p).score ≤ 100
      ∧ jsonNonemptyList (TextAgent._fallback p).findings = true)
    ∧ (0 ≤ (VisualAgent._fallback p).score ∧ (VisualAgent._fallback p).score ≤ 100
      ∧ jsonNonemptyList (VisualAgent._fallback p).findings = true)
    ∧ (0 ≤ (UxAgent._fallback p).score ∧ (UxAgent._fallback p).score ≤ 100
      ∧ jsonNonemptyList (UxAgent._fallback p).findings = true)
    ∧ (0 ≤ (TrustAgent._fallback p).score ∧ (TrustAgent._fallback p).score ≤ 100
      ∧ jsonNonemptyList (TrustAgent._fallback p).findings = true)
    ∧ (0 ≤ (TechAgent._fallback p).score ∧ (TechAgent._fallback p).score ≤ 100
      ∧ jsonNonemptyList (TechAgent._fallback p).findings = true) :=
  ⟨⟨(text_fallback_score_bounds p).1, (text_fallback_score_bounds p).2,
      text_fallback_findings_nonempty p⟩,
   ⟨(visual_fallback_score_bounds p).1, (visual_fallback_score_bounds p).2,
      visual_fallback_findings_nonempty p⟩,
   ⟨(ux_fallback_score_bounds p).1, (ux_fallback_score_bounds p).2,
      ux_fallback_findings_nonempty p⟩,
   ⟨(trust_fallback_score_bounds p).1, (trust_fallback_score_bounds p).2,
      trust_fallback_findings_nonempty p⟩,
   ⟨(tech_fallback_score_bounds p).1, (tech_fallback_score_bounds p).2,
      tech_fallback_findings_nonempty p⟩⟩

/-- A parsed response without a score key never yields a converted
score. -/
theorem scoreFromData_eq_none (d : Json) (h : hasScoreKey d = false) :
    scoreFromData d = none := by
  cases d <;> simp [hasScoreKey, scoreFromData] at *
  rcases hl : jsonLookup _ "score" with _ | v
  · rfl
  · rw [hl] at h
    simp at h

/-- C2: for every snapshot, if the external generative call raises any
error, or the response parser yields no object (Json.null), or it yields
an object lacking a score field — both covered by `hasScoreKey` being
false — then the Trust and Text agents' analyze returns exactly the
result of the rule-based fallback scorer; being a total function of the
snapshot and outcome, analyze never raises to its caller. -/
theorem llm_failure_falls_back :
    (∀ p : PageData,
      TrustAgent.analyze p LLMOutcome.err = TrustAgent._fallback p
      ∧ TextAgent.analyze p LLMOutcome.err = TextAgent._fallback p)
    ∧ (∀ (p : PageData) (raw : String),
      hasScoreKey (LLMRouter.parse_json raw) = false →
      TrustAgent.analyze p (LLMOutcome.ok raw) = TrustAgent._fallback p
      ∧ TextAgent.analyze p (LLMOutcome.ok raw) = TextAgent._fallback p) := by
  refine ⟨fun p => ⟨rfl, rfl⟩, fun p raw h => ?_⟩
  have h2 : scoreFromData (LLMRouter.parse_json raw) = none :=
    scoreFromData_eq_none _ h
  constructor <;> simp [TrustAgent.analyze, TextAgent.analyze, h2]

/-- Witness for C2: a prose response parses to Json.null, which lacks a
score key, so the Trust agent's analyze returns its fallback result. -/
theorem llm_failure_falls_back_witness :
    hasScoreKey (LLMRouter.parse_json "the model replied with plain prose") = false
    ∧ TrustAgent.analyze { url := "https://w.example" }
        (LLMOutcome.ok "the model replied with plain prose")
      = TrustAgent._fallback { url := "https://w.example" } :=
  ⟨rfl, (llm_failure_falls_back.2 { url := "https://w.example" }
    "the model replied with plain prose" rfl).1⟩

/-- A raised call vacuously satisfies the score bound. -/
theorem outcomeScoreBounded_err : outcomeScoreBounded LLMOutcome.err :=
  fun _ _ h => nomatch h

/-- Bound for the shared single-call agent shape: either the parsed
score (bounded by hypothesis) or the fallback clamp. -/
theorem trust_analyze_bounds (p : PageData) (o : LLMOutcome)
    (h : outcomeScoreBounded o) :
    0 ≤ (TrustAgent.analyze p o).score ∧ (TrustAgent.analyze p o).score ≤ 100 := by
  cases o with
  | err => exact trust_fallback_score_bounds p
  | ok raw =>
    rcases hs : scoreFromData (LLMRouter.parse_json raw) with _ | q
    · simpa [TrustAgent.analyze, hs] using trust_fallback_score_bounds p
    · simpa [TrustAgent.analyze, hs] using h raw q rfl hs

/-- Bound for text_agent.analyze. -/
theorem text_analyze_bounds (p : PageData) (o : LLMOutcome)
    (h : outcomeScoreBounded o) :
    0 ≤ (TextAgent.analyze p o).score ∧ (TextAgent.analyze p o).score ≤ 100 := by
  cases o with
  | err => exact text_fallback_score_bounds p
  | ok raw =>
    rcases hs : scoreFromData (LLMRouter.parse_json raw) with _ | q
    · simpa [TextAgent.analyze, hs] using text_fallback_score_bounds p
    · simpa [TextAgent.analyze, hs] using h raw q rfl hs

/-- Bound for ux_agent.analyze. -/
theorem ux_analyze_bounds (p : PageData) (o : LLMOutcome)
    (h : outcomeScoreBounded o) :
    0 ≤ (UxAgent.analyze p o).score ∧ (UxAgent.analyze p o).score ≤ 100 := by
  cases o with
  | err => exact ux_fallback_score_bounds p
  | ok raw =>
    rcases hs : scoreFromData (LLMRouter.parse_json raw) with _ | q
    · simpa [UxAgent.analyze, hs] using ux_fallback_score_bounds p
    · simpa [UxAgent.analyze, hs] using h raw q rfl hs

/-- Bound for tech_agent.analyze. -/
theorem tech_analyze_bounds (p : PageData) (o : LLMOutcome)
    (h : outcomeScoreBounded o) :
    0 ≤ (TechAgent.analyze p o).score ∧ (TechAgent.analyze p o).score ≤ 100 := by
  cases o with
  | err => exact tech_fallback_score_bounds p
  | ok raw =>
    rcases hs : scoreFromData (LLMRouter.parse_json raw) with _ | q
    · simpa [TechAgent.analyze, hs] using tech_fallback_score_bounds p
    · simpa [TechAgent.analyze, hs] using h raw q rfl hs

/-- A successful visual phase carries a score bounded by the outcome
hypothesis. -/
theorem phaseResult_bounds (o : LLMOutcome) (h : outcomeScoreBounded o)
    (q : ℚ) (f : Json) (hp : VisualAgent.phaseResult o = some (q, f)) :
    0 ≤ q ∧ q ≤ 100 := by
  cases o with
  | err => simp [VisualAgent.phaseResult] at hp
  | ok raw =>
    rcases hs : scoreFromData (LLMRouter.parse_json raw) with _ | q2
    · simp [VisualAgent.phaseResult, hs] at hp
    · simp [VisualAgent.phaseResult, hs] at hp
      exact hp.1 ▸ h raw q2 rfl hs

/-- Every result the visual agent produces — blend, single phase, or
fallback — has a bounded score when the parsed phase scores are
bounded. -/
theorem visual_analyze_bounds (p : PageData) (o1 o2 : LLMOutcome)
    (h1 : outcomeScoreBounded o1) (h2 : outcomeScoreBounded o2)
    (r : AgentResult) (hr : VisualAgent.analyze p o1 o2 = some r) :
    0 ≤ r.score ∧ r.score ≤ 100 := by
  unfold VisualAgent.analyze at hr
  rcases hm : VisualAgent.phaseResult o1 with _ | ⟨m, fm⟩ <;>
    rcases hv : (if p.image_urls ≠ [] then VisualAgent.phaseResult o2 else none)
      with _ | ⟨v, fv⟩ <;>
    rw [hm, hv] at hr <;> simp at hr
  · -- neither phase: fallback
    rw [← hr]
    exact visual_fallback_score_bounds p
  · -- vision only
    have hb : 0 ≤ v ∧ v ≤ 100 := by
      by_cases hi : p.image_urls ≠ []
      · rw [if_pos hi] at hv
        exact phaseResult_bounds o2 h2 v fv hv
      · rw [if_neg hi] at hv
        exact absurd hv (by simp)
    rw [← hr]
    exact hb
  · -- metadata only
    have hb : 0 ≤ m ∧ m ≤ 100 := phaseResult_bounds o1 h1 m fm hm
    rw [← hr]
    exact hb
  · -- both phases: blended score
    have hbm : 0 ≤ m ∧ m ≤ 100 := phaseResult_bounds o1 h1 m fm hm
    have hbv : 0 ≤ v ∧ v ≤ 100 := by
      by_cases hi : p.image_urls ≠ []
      · rw [if_pos hi] at hv
        exact phaseResult_bounds o2 h2 v fv hv
      · rw [if_neg hi] at hv
        exact absurd hv (by simp)
    rcases ha : pyAdd fm fv with _ | allF <;> rw [ha] at hr <;> simp at hr
    rw [← hr]
    constructor
    · apply pyRound1_nonneg
      nlinarith [hbm.1, hbv.1]
    · apply pyRound1_le_100
      nlinarith [hbm.2, hbv.2]

/-- C1 (corrected): every AgentResult produced on the rule-based
fallback path has score in [0,100]; on the generative and visual
blending paths the agents install the externally parsed score without
clamping, so the invariant holds exactly when every score parsed from an
external response lies in [0,100] — which this theorem assumes via
`outcomeScoreBounded`. -/
theorem agent_scores_in_range (p : PageData) (o o1 o2 : LLMOutcome)
    (h : outcomeScoreBounded o)
    (h1 : outcomeScoreBounded o1) (h2 : outcomeScoreBounded o2) :
    (0 ≤ (TextAgent.analyze p o).score ∧ (TextAgent.analyze p o).score ≤ 100)
    ∧ (0 ≤ (UxAgent.analyze p o).score ∧ (UxAgent.analyze p o).score ≤ 100)
    ∧ (0 ≤ (TrustAgent.analyze p o).score ∧ (TrustAgent.analyze p o).score ≤ 100)
    ∧ (0 ≤ (TechAgent.analyze p o).score ∧ (TechAgent.analyze p o).score ≤ 100)
    ∧ (∀ r : AgentResult, VisualAgent.analyze p o1 o2 = some r →
        0 ≤ r.score ∧ r.score ≤ 100) :=
  ⟨text_analyze_bounds p o h, ux_analyze_bounds p o h, trust_analyze_bounds p o h,
   tech_analyze_bounds p o h, fun r hr => visual_analyze_bounds p o1 o2 h1 h2 r hr⟩

/-- Witness for C1's amended theorem: with all calls failing, the Text
agent's score is in range. -/
theorem agent_scores_in_range_witness :
    0 ≤ (TextAgent.analyze { url := "https://w2.example" } LLMOutcome.err).score
    ∧ (TextAgent.analyze { url := "https://w2.example" } LLMOutcome.err).score ≤ 100 :=
  (agent_scores_in_range { url := "https://w2.example" }
    LLMOutcome.err LLMOutcome.err LLMOutcome.err
    outcomeScoreBounded_err outcomeScoreBounded_err outcomeScoreBounded_err).1

/-- Counterexample to C1 as stated: when the generative call returns a
score of 150, trust_agent.analyze installs 150 into the AgentResult
unclamped, so the produced score exceeds 100. -/
theorem generative_score_unclamped_cex :
    (TrustAgent.analyze { url := "https://cex.example" }
        (LLMOutcome.ok "\x7b\"score\": 150\x7d")).score = 150
    ∧ ¬((TrustAgent.analyze { url := "https://cex.example" }
        (LLMOutcome.ok "\x7b\"score\": 150\x7d")).score ≤ 100) := by
  have h : (TrustAgent.analyze { url := "https://cex.example" }
      (LLMOutcome.ok "\x7b\"score\": 150\x7d")).score = 150 := rfl
  refine ⟨h, ?_⟩
  rw [h]
  norm_num

/-- C5: the Visual agent's result policy — when both phases yield a
score (with list-typed findings, per the AgentResult findings contract),
final = round(vision*0.6 + metadata*0.4, 1) and the findings are the
metadata findings followed by the vision findings; when exactly one
phase yields a score, that score and those findings are used; when
neither yields a score, the rule-based fallback result is returned; the
vision phase is consulted only when at least one image URL exists; and
metadata 80 with vision 60 gives final = 68.0. -/
theorem visual_blending_policy :
    (∀ (p : PageData) (o1 o2 : LLMOutcome) (m v : ℚ) (fm fv : List Json),
      VisualAgent.phaseResult o1 = some (m, Json.arr fm) →
      p.image_urls ≠ [] →
      VisualAgent.phaseResult o2 = some (v, Json.arr fv) →
      VisualAgent.analyze p o1 o2 = some
        { agent_name := VisualAgent.AGENT_NAME,
          score := pyRound1 (v * 0.6 + m * 0.4),
          findings := Json.arr (fm ++ fv),
          summary := Json.str ("Visual score " ++ pyNum (pyRound1 (v * 0.6 + m * 0.4))
            ++ "/100 based on " ++ toString p.image_urls.length ++ " image(s).") })
    ∧ (∀ (p : PageData) (o1 o2 : LLMOutcome) (v : ℚ) (fv : Json),
      VisualAgent.phaseResult o1 = none →
      p.image_urls ≠ [] →
      VisualAgent.phaseResult o2 = some (v, fv) →
      VisualAgent.analyze p o1 o2 = some
        { agent_name := VisualAgent.AGENT_NAME, score := v, findings := fv,
          summary := Json.str ("Visual score " ++ pyNum v
            ++ "/100 based on " ++ toString p.image_urls.length ++ " image(s).") })
    ∧ (∀ (p : PageData) (o1 o2 : LLMOutcome) (m : ℚ) (fm : Json),
      VisualAgent.phaseResult o1 = some (m, fm) →
      (p.image_urls = [] ∨ VisualAgent.phaseResult o2 = none) →
      VisualAgent.analyze p o1 o2 = some
        { agent_name := VisualAgent.AGENT_NAME, score := m, findings := fm,
          summary := Json.str ("Visual score " ++ pyNum m
            ++ "/100 based on " ++ toString p.image_urls.length ++ " image(s).") })
    ∧ (∀ (p : PageData) (o1 o2 : LLMOutcome),
      VisualAgent.phaseResult o1 = none →
      (p.image_urls = [] ∨ VisualAgent.phaseResult o2 = none) →
      VisualAgent.analyze p o1 o2 = some (VisualAgent._fallback p))
    ∧ (∀ (p : PageData) (o1 o2 o2' : LLMOutcome), p.image_urls = [] →
      VisualAgent.analyze p o1 o2 = VisualAgent.analyze p o1 o2')
    ∧ (∃ r : AgentResult,
      VisualAgent.analyze visualOnePage (LLMOutcome.ok visualMetaRaw)
        (LLMOutcome.ok visualVisionRaw) = some r ∧ r.score = 68) := by
  refine ⟨?_, ?_, ?_, ?_, ?_, ?_⟩
  · intro p o1 o2 m v fm fv hm hi hv
    simp [VisualAgent.analyze, hm, hi, hv, pyAdd]
  · intro p o1 o2 v fv hm hi hv
    simp [VisualAgent.analyze, hm, hi, hv]
  · intro p o1 o2 m fm hm hd
    have hvr : (if p.image_urls ≠ [] then VisualAgent.phaseResult o2 else none) = none := by
      rcases hd with h | h
      · simp [h]
      · by_cases hi : p.image_urls ≠ [] <;> simp [hi, h]
    simp [VisualAgent.analyze, hm, hvr]
  · intro p o1 o2 hm hd
    have hvr : (if p.image_urls ≠ [] then VisualAgent.phaseResult o2 else none) = none := by
      rcases hd with h | h
      · simp [h]
      · by_cases hi : p.image_urls ≠ [] <;> simp [hi, h]
    simp [VisualAgent.analyze, hm, hvr]
  · intro p o1 o2 o2' h
    simp [VisualAgent.analyze, h]
  · refine ⟨_, rfl, ?_⟩
    show pyRound1 ((60 : ℚ) * 0.6 + (80 : ℚ) * 0.4) = 68
    norm_num [pyRound1, roundHalfEven]

/-- Witness for C5: with both calls failing on an imageless snapshot,
the visual agent returns its fallback result. -/
theorem visual_blending_policy_witness :
    VisualAgent.analyze { url := "https://w3.example" } LLMOutcome.err LLMOutcome.err
      = some (VisualAgent._fallback { url := "https://w3.example" }) :=
  visual_blending_policy.2.2.2.1 { url := "https://w3.example" }
    LLMOutcome.err LLMOutcome.err rfl (Or.inl rfl)

/-- C8 (amended): parse_json tries three tiers in order with the first
success winning — whole text, fenced-block interior, first-brace-to-
last-brace span — and a tier that fails to parse is skipped; if all
tiers fail it returns no result (Json.null); the brace-span tier cannot
apply to a text with no opening brace, so a braceless text yields a
result only through the first two tiers — plain prose yields no result,
while a braceless text that is itself a valid JSON document (such as
"42") yields that parsed value through tier one. -/
theorem parse_json_tiers :
    (∀ (t : String) (v : Json), LLMRouter.jsonLoads t = some v →
      LLMRouter.parse_json t = v)
    ∧ (∀ (t inner : String) (v : Json), LLMRouter.jsonLoads t = none →
      LLMRouter.extractFenced t = some inner →
      LLMRouter.jsonLoads inner = some v →
      LLMRouter.parse_json t = v)
    ∧ (∀ t : String, LLMRouter.jsonLoads t = none →
      (∀ inner : String, LLMRouter.extractFenced t = some inner →
        LLMRouter.jsonLoads inner = none) →
      LLMRouter.parse_json t = LLMRouter.braceTier t)
    ∧ (∀ t : String, LLMRouter.braceSpan t.data = none →
      LLMRouter.braceTier t = Json.null)
    ∧ (∀ (t : String) (span : List Char), LLMRouter.braceSpan t.data = some span →
      LLMRouter.jsonLoads (String.mk span) = none →
      LLMRouter.braceTier t = Json.null)
    ∧ (∀ t : String, LLMRouter.firstIdx '\x7b' t.data = none →
      LLMRouter.braceSpan t.data = none)
    ∧ LLMRouter.parse_json "hello world" = Json.null := by
  refine ⟨?_, ?_, ?_, ?_, ?_, ?_, rfl⟩
  · intro t v h
    simp [LLMRouter.parse_json, h]
  · intro t inner v h1 h2 h3
    simp [LLMRouter.parse_json, h1, h2, h3]
  · intro t h1 h2
    rcases he : LLMRouter.extractFenced t with _ | inner
    · simp [LLMRouter.parse_json, h1, he]
    · simp [LLMRouter.parse_json, h1, he, h2 inner he]
  · intro t h
    simp [LLMRouter.braceTier, h]
  · intro t span h1 h2
    simp [LLMRouter.braceTier, h1, h2]
  · intro t h
    simp [LLMRouter.braceSpan, h]

/-- Witness for C8's amended theorem: the empty object text parses in
tier one. -/
theorem parse_json_tiers_witness :
    LLMRouter.parse_json "\x7b\x7d" = Json.obj [] :=
  parse_json_tiers.1 "\x7b\x7d" (Json.obj []) rfl

/-- Counterexample to C8 as stated: the text "42" contains no brace at
all, yet parse_json returns the parsed number 42 rather than no result,
because tier one parses any JSON document, not only objects. -/
theorem parse_json_braceless_value_cex :
    LLMRouter.parse_json "42" = Json.num 42
    ∧ LLMRouter.parse_json "42" ≠ Json.null := by
  refine ⟨rfl, ?_⟩
  intro h
  have h2 : Json.num 42 = Json.null :=
    (show Json.num 42 = LLMRouter.parse_json "42" from rfl).trans h
  exact Json.noConfusion h2

/-- C9: parse_json applied to the score-72 object wrapped in a fenced
code block — with or without the json tag — returns exactly the object
that the bare text yields; fence stripping is transparent. -/
theorem parse_json_fence_transparent :
    LLMRouter.parse_json ("```json\n" ++ bareObjText ++ "\n```")
      = LLMRouter.parse_json bareObjText
    ∧ LLMRouter.parse_json ("```\n" ++ bareObjText ++ "\n```")
      = LLMRouter.parse_json bareObjText
    ∧ LLMRouter.parse_json bareObjText
      = Json.obj [("score", Json.num 72), ("findings", Json.arr [Json.str "x"]),
          ("summary", Json.str "y")] :=
  ⟨rfl, rfl, rfl⟩

/-- Witness for C4: the partition theorem instantiated at 95 yields
grade "A+". -/
theorem grade_partition_witness : Scoring._get_grade 95 = "A+" :=
  (grade_partition.1 95).1.mpr (by norm_num)

/-- Witness for C6: the totality theorem instantiated at an empty
snapshot — zero images, empty text, empty headings. -/
theorem fallback_total_in_range_nonempty_witness :
    0 ≤ (TextAgent._fallback { url := "https://w4.example" }).score
    ∧ (TextAgent._fallback { url := "https://w4.example" }).score ≤ 100
    ∧ jsonNonemptyList (TextAgent._fallback { url := "https://w4.example" }).findings
      = true :=
  (fallback_total_in_range_nonempty { url := "https://w4.example" }).1

/-- Witness for C10: a zeroed usage counter still produces the KeyError
on total_retries. -/
theorem usage_summary_keys_and_retries_keyerror_witness :
    App.run_analysis_tail 50 "D"
        (LLMRouter.get_usage_summary
          { total_prompt_tokens := 0, total_completion_tokens := 0, total_calls := 0 })
      = Except.error "KeyError: total_retries" :=
  (usage_summary_keys_and_retries_keyerror
    { total_prompt_tokens := 0, total_completion_tokens := 0, total_calls := 0 }
    50 "D").2.2
